import Mathlib

/-!
Shallow embedding of the BreachWatch scraper's incident deduplication and
update-classification pipeline.

The embedded code comes from the scraper design documents in the repository,
which carry the authoritative inline implementation of the pipeline:
* the main processing loop, `find_in_run_duplicate` and the decision branch
  (`is_genuine_update` / `is_duplicate` / create-new) from the scraper plan
  document (`main.py` workflow);
* `_compute_match_signals` from the update-detection improvements design.

Python floats are embedded as exact rationals (all constants involved are
short decimals), Python `None` as `Option.none`, and Python truthiness of
`int` and `str` values as the corresponding zero/empty tests.  External
service and storage calls (DeepSeek extraction, update detection, Supabase
writes) are modelled as an explicit record of fallible functions; a raised
exception is an `Except.error`, matching the per-article `try/except` of
the main loop.
-/

/-- Raw article unit as consumed by the main loop: the stable `url`
identifier plus display metadata. -/
structure Article where
  url : String
  title : String
deriving DecidableEq, Repr

/-- Structured data extracted from one article by `extract_breach_data`
(the fields the deduplication pipeline reads). -/
structure Extracted where
  company : String
  records_affected : Option Int
  attack_vector : Option String
deriving DecidableEq, Repr

/-- A breach record visible to in-run matching: either fetched from the
database at run start or appended by an earlier create in the same run. -/
structure Breach where
  id : String
  company : String
  records_affected : Option Int
  attack_vector : Option String
deriving DecidableEq, Repr

/-- Embeds the `records_match` computation of `_compute_match_signals` in
`main.py`: `None` unless both values are Python-truthy (non-`None` and
nonzero), otherwise the test `abs(a - b) / max(a, b) <= 0.10` carried out
in exact rational arithmetic. -/
def records_match : Option Int → Option Int → Option Bool
  | some a, some b =>
    if a = 0 ∨ b = 0 then none
    else some (decide (|(a : ℚ) - (b : ℚ)| / max (a : ℚ) (b : ℚ) ≤ 1/10))
  | _, _ => none

/-- Embeds the `attack_vector_match` computation of `_compute_match_signals`:
`None` unless both strings are Python-truthy (non-`None` and nonempty),
otherwise exact equality. -/
def attack_vector_match : Option String → Option String → Option Bool
  | some v, some w =>
    if v = "" ∨ w = "" then none
    else some (decide (v = w))
  | _, _ => none

/-- Per-candidate signal entry produced by `_compute_match_signals`. -/
structure SignalEntry where
  records_match : Option Bool
  attack_vector_match : Option Bool
  existing_records : Option Int
  existing_attack_vector : Option String
deriving DecidableEq, Repr

/-- Embeds `_compute_match_signals(extracted, candidates)` from `main.py`:
candidates with a falsy id are skipped, every other candidate is mapped to
its structural signal entry (the Python dict is embedded as an association
list in candidate order). -/
def compute_match_signals (extracted : Extracted) (candidates : List Breach) :
    List (String × SignalEntry) :=
  candidates.filterMap fun c =>
    if c.id = "" then none
    else some (c.id,
      { records_match := records_match extracted.records_affected c.records_affected
        attack_vector_match := attack_vector_match extracted.attack_vector c.attack_vector
        existing_records := c.records_affected
        existing_attack_vector := c.attack_vector })

/-- Fuel-indexed longest-common-subsequence length of two character lists;
structural recursion on the fuel keeps it kernel-computable. -/
def lcsLenF : Nat → List Char → List Char → Nat
  | 0, _, _ => 0
  | _+1, [], _ => 0
  | _+1, _ :: _, [] => 0
  | f+1, a :: as, b :: bs =>
    if a = b then 1 + lcsLenF f as bs
    else max (lcsLenF f (a :: as) bs) (lcsLenF f as (b :: bs))

/-- Longest-common-subsequence length of two character lists; used by the
modelled company-name similarity below.  The combined length is always
enough fuel, since every recursive step shortens one of the lists. -/
def lcsLen (a b : List Char) : Nat := lcsLenF (a.length + b.length) a b

/-- Normalization used by the modelled similarity: lower-case the string and
collapse runs of whitespace into single spaces (trimming the ends). -/
def norm_chars (s : String) : List Char :=
  List.intercalate [' ']
    (((s.toList.map Char.toLower).splitOnP (fun c => c.isWhitespace)).filter
      (fun w => w ≠ []))

/-- Modelled from the spec: the body of `_company_similarity` in
`scraper/main.py` is not among the repository sources here (only its name,
call sites and descriptions are).  The spec describes it as a normalized
(case-insensitive, whitespace-collapsed) string-similarity ratio computed
with `difflib.SequenceMatcher`; it is modelled as the size-normalized
common-subsequence measure `2 * common / (len(a) + len(b))` on the
normalized strings, which agrees with `SequenceMatcher.ratio()` on the
concrete inputs used below (two empty strings score `1`, as in `difflib`).
-/
def company_similarity (s t : String) : ℚ :=
  if (norm_chars s).length + (norm_chars t).length = 0 then 1
  else (2 * (lcsLen (norm_chars s) (norm_chars t) : ℚ)) /
    (((norm_chars s).length : ℚ) + ((norm_chars t).length : ℚ))

/-- In-run fuzzy-match threshold `FUZZY_MATCH_THRESHOLD = 0.85` from
`main.py`. -/
def FUZZY_MATCH_THRESHOLD : ℚ := 85/100

/-- Embeds `find_in_run_duplicate(company, existing_breaches)` from
`main.py`: scan `existing_breaches` in order and return the first breach
whose company-name similarity to `company` reaches the threshold, `None`
otherwise.  The similarity metric is passed as a parameter since its body
lives outside the sources embedded here; every theorem below either
quantifies over it or instantiates it with `company_similarity`. -/
def find_in_run_duplicate (sim : String → String → ℚ) (company : String)
    (existing_breaches : List Breach) : Option Breach :=
  existing_breaches.find? fun b =>
    decide (FUZZY_MATCH_THRESHOLD ≤ sim company b.company)

/-- Result dictionary of `ai_processor.detect_update` (and of the forced
in-run path), restricted to the keys the main loop reads.  A forced check
carries no `is_duplicate_source` key; since the loop reads that key with
`update_check.get('is_duplicate_source', False)`, the absent key is
embedded as `false`. -/
structure UpdateCheck where
  is_update : Bool
  related_breach_id : Option String
  confidence : ℚ
  is_duplicate_source : Bool
deriving DecidableEq, Repr

/-- The forced update check built by the main loop when
`find_in_run_duplicate` returns a match:
`{'is_update': True, 'related_breach_id': match['id'], 'confidence': 1.0}`. -/
def forced_update_check (b : Breach) : UpdateCheck :=
  { is_update := true
    related_breach_id := some b.id
    confidence := 1
    is_duplicate_source := false }

/-- External collaborators of the main loop, as fallible functions: the
DeepSeek extraction and update-detection calls and the Supabase writes.
`Except.error` stands for a raised exception; `write_new_breach` returns
the id of the created record. -/
structure Services where
  extract_breach_data : Article → Except String Extracted
  detect_update : Article → List Breach → Except String UpdateCheck
  write_new_breach : Extracted → Article → Except String String
  write_breach_update : Extracted → Option String → Article → Except String Unit

/-- Run-scoped mutable state of the main loop: the `existing_breaches`
list (database candidates plus records created earlier in this run), the
processed-IDs cache, and the run counters from `stats`. -/
structure RunState where
  existing : List Breach
  processed : List String
  breaches_created : Nat
  updates_created : Nat
  duplicates_skipped : Nat
  errors : Nat
deriving DecidableEq, Repr

/-- The `if is_genuine_update / elif is_duplicate / else` decision branch
of the main loop, starting from the computed `update_check`:
`is_genuine_update = update_check['is_update'] and update_check['confidence'] >= 0.7 and not is_duplicate`.
On the update path the loop appends a timeline entry; on the duplicate
path it only counts; on the create path it inserts a new record and
registers it in `existing_breaches` for in-run detection of subsequent
articles.  Each successful path then marks the article's url processed. -/
def decide_and_write (o : Services) (st : RunState) (a : Article) (e : Extracted)
    (uc : UpdateCheck) : Except String RunState :=
  if uc.is_update = true ∧ (7 : ℚ)/10 ≤ uc.confidence ∧ uc.is_duplicate_source = false then
    match o.write_breach_update e uc.related_breach_id a with
    | .error m => .error m
    | .ok _ => .ok { st with
        updates_created := st.updates_created + 1
        processed := st.processed ++ [a.url] }
  else if uc.is_duplicate_source = true then
    .ok { st with
      duplicates_skipped := st.duplicates_skipped + 1
      processed := st.processed ++ [a.url] }
  else
    match o.write_new_breach e a with
    | .error m => .error m
    | .ok bid => .ok { st with
        existing := st.existing ++
          [{ id := bid
             company := e.company
             records_affected := e.records_affected
             attack_vector := e.attack_vector }]
        breaches_created := st.breaches_created + 1
        processed := st.processed ++ [a.url] }

/-- How the main loop obtains `update_check`: a match from
`find_in_run_duplicate` forces the update check without any service call;
otherwise `ai_processor.detect_update` is called. -/
def resolve_update_check (o : Services) (sim : String → String → ℚ) (st : RunState)
    (a : Article) (e : Extracted) : Except String UpdateCheck :=
  match find_in_run_duplicate sim e.company st.existing with
  | some b => .ok (forced_update_check b)
  | none => o.detect_update a st.existing

/-- Body of the per-article `try` block of the main loop; an error anywhere
in it propagates to the `except` handler. -/
def processArticleBody (o : Services) (sim : String → String → ℚ) (st : RunState)
    (a : Article) : Except String RunState :=
  match o.extract_breach_data a with
  | .error m => .error m
  | .ok e =>
    match resolve_update_check o sim st a e with
    | .error m => .error m
    | .ok uc => decide_and_write o st a e uc

/-- One iteration of the main loop over one article: the `try/except`
wrapper catches any per-article error, increments the error counter and
otherwise leaves the state untouched. -/
def processArticle (o : Services) (sim : String → String → ℚ) (st : RunState)
    (a : Article) : RunState :=
  match processArticleBody o sim st a with
  | .ok st' => st'
  | .error _ => { st with errors := st.errors + 1 }

/-- Observation: whether processing article `a` from state `st` reaches the
`detect_update` service call, i.e. extraction succeeds and the in-run
fuzzy lookup finds no match. -/
def detect_called (o : Services) (sim : String → String → ℚ) (st : RunState)
    (a : Article) : Bool :=
  match o.extract_breach_data a with
  | .error _ => false
  | .ok e => (find_in_run_duplicate sim e.company st.existing).isNone

/-- The sequential main loop over the batch of new articles. -/
def run_articles (o : Services) (sim : String → String → ℚ) :
    List Article → RunState → RunState
  | [], st => st
  | a :: rest, st => run_articles o sim rest (processArticle o sim st a)

/-- Embeds `cache_manager.get_new_articles`: keep only the articles whose
url is not in the processed-IDs cache. -/
def get_new_articles (processed : List String) (articles : List Article) : List Article :=
  articles.filter fun a => !(processed.contains a.url)

/-- Run state at the start of a batch: candidates fetched from storage, the
loaded processed-IDs cache, all counters zero. -/
def init_state (existing : List Breach) (processed : List String) : RunState :=
  { existing := existing
    processed := processed
    breaches_created := 0
    updates_created := 0
    duplicates_skipped := 0
    errors := 0 }

/-- The pipeline over one run: filter out already-processed articles, then
run the main loop from the initial state. -/
def run_pipeline (o : Services) (sim : String → String → ℚ) (existing : List Breach)
    (processed : List String) (recent : List Article) : RunState :=
  run_articles o sim (get_new_articles processed recent) (init_state existing processed)

/-- Degenerate similarity metric (never matches) used by fixtures whose
scenario keeps the in-batch index out of the way. -/
def zero_sim : String → String → ℚ := fun _ _ => 0

/-- Fixture for C1: the article being processed. -/
def c1_article : Article := { url := "u-c1", title := "t-c1" }

/-- Fixture for C1: its extraction result. -/
def c1_extracted : Extracted :=
  { company := "acme corp", records_affected := none, attack_vector := none }

/-- Fixture for C1: a GENUINE_UPDATE verdict with confidence 0.6 < 0.7. -/
def c1_check : UpdateCheck :=
  { is_update := true
    related_breach_id := some "r0"
    confidence := 6/10
    is_duplicate_source := false }

/-- Fixture for C1: collaborators that extract successfully, return the
low-confidence update verdict, and whose storage writes succeed. -/
def c1_services : Services :=
  { extract_breach_data := fun _ => .ok c1_extracted
    detect_update := fun _ _ => .ok c1_check
    write_new_breach := fun _ _ => .ok "b-new"
    write_breach_update := fun _ _ _ => .ok () }

/-- Fixture for C2 (witness): a record already registered this run. -/
def c2_breach : Breach :=
  { id := "b0", company := "acme corp", records_affected := none, attack_vector := none }

/-- Fixture for C2 (witness): the later article about the same company. -/
def c2_article : Article := { url := "u-c2", title := "t-c2" }

/-- Fixture for C2 (witness): its extraction result. -/
def c2_extracted : Extracted :=
  { company := "acme corp", records_affected := none, attack_vector := none }

/-- Fixture for C2 (witness): collaborators; `detect_update` is never
reached in the forced scenario. -/
def c2_services : Services :=
  { extract_breach_data := fun _ => .ok c2_extracted
    detect_update := fun _ _ => .error "unreached"
    write_new_breach := fun _ _ => .ok "b-ignored"
    write_breach_update := fun _ _ _ => .ok () }

/-- Fixture for C2 (witness): run state with the earlier record registered. -/
def c2_state : RunState := init_state [c2_breach] []

/-- Fixture for the C2 counterexample: first of two same-company articles. -/
def c2x_a1 : Article := { url := "u-x1", title := "t-x1" }

/-- Fixture for the C2 counterexample: second of two same-company articles. -/
def c2x_a2 : Article := { url := "u-x2", title := "t-x2" }

/-- Fixture for the C2 counterexample: the service classifies both articles
as DUPLICATE_SOURCE, so neither creates or registers a record. -/
def c2x_check : UpdateCheck :=
  { is_update := false
    related_breach_id := none
    confidence := 9/10
    is_duplicate_source := true }

/-- Fixture for the C2 counterexample: both articles extract to the same
company name. -/
def c2x_services : Services :=
  { extract_breach_data := fun _ =>
      .ok { company := "acme corp", records_affected := none, attack_vector := none }
    detect_update := fun _ _ => .ok c2x_check
    write_new_breach := fun _ _ => .ok "b-x"
    write_breach_update := fun _ _ _ => .ok () }

/-- Fixture for the C2 counterexample: empty database, empty cache. -/
def c2x_state : RunState := init_state [] []

/-- Fixture for the C3 counterexample: earlier-registered record whose name
matches the query above threshold but not exactly. -/
def c3_b1 : Breach :=
  { id := "b1", company := "Acme Corporation Inc", records_affected := none
    attack_vector := none }

/-- Fixture for the C3 counterexample: later-registered record whose name
matches the query exactly (the strictly higher score). -/
def c3_b2 : Breach :=
  { id := "b2", company := "Acme Corporation", records_affected := none
    attack_vector := none }

/-- Fixture for the C3 witness: a registered record far below threshold. -/
def c3_low : Breach :=
  { id := "bz", company := "zz", records_affected := none, attack_vector := none }

/-- Fixture for the C3 witness: the first record meeting the threshold. -/
def c3_hit : Breach :=
  { id := "ba", company := "acme corp", records_affected := none, attack_vector := none }

/-- Fixture for C6: the article being processed. -/
def c6_article : Article := { url := "u-c6", title := "t-c6" }

/-- Fixture for C6: its extraction result. -/
def c6_extracted : Extracted :=
  { company := "zeta", records_affected := none, attack_vector := none }

/-- Fixture for C6: a DUPLICATE_SOURCE verdict at low confidence. -/
def c6_check : UpdateCheck :=
  { is_update := false
    related_breach_id := none
    confidence := 3/10
    is_duplicate_source := true }

/-- Fixture for C6: collaborators returning the duplicate verdict. -/
def c6_services : Services :=
  { extract_breach_data := fun _ => .ok c6_extracted
    detect_update := fun _ _ => .ok c6_check
    write_new_breach := fun _ _ => .ok "b-c6"
    write_breach_update := fun _ _ _ => .ok () }

/-- Fixture for C6: empty database, empty cache. -/
def c6_state : RunState := init_state [] []

/-- Fixture for C7: collaborators whose extraction call raises. -/
def c7_services : Services :=
  { extract_breach_data := fun _ => .error "boom"
    detect_update := fun _ _ => .error "boom"
    write_new_breach := fun _ _ => .error "boom"
    write_breach_update := fun _ _ _ => .error "boom" }

/-- Fixture for C7: the failing article. -/
def c7_a : Article := { url := "u-c7a", title := "t-c7a" }

/-- Fixture for C7: the next article in the batch. -/
def c7_b : Article := { url := "u-c7b", title := "t-c7b" }

/-- Fixture for C7: initial run state. -/
def c7_state : RunState := init_state [] []

/-- Fixture for C8: an article whose url is already in the cache. -/
def c8_article : Article := { url := "u-c8", title := "t-c8" }

/-- Fixture for C8: collaborators (never reached over an empty batch). -/
def c8_services : Services :=
  { extract_breach_data := fun _ => .error "unreached"
    detect_update := fun _ _ => .error "unreached"
    write_new_breach := fun _ _ => .error "unreached"
    write_breach_update := fun _ _ _ => .error "unreached" }

/-- Fixture for C10: the article being processed. -/
def c10_article : Article := { url := "u-c10", title := "t-c10" }

/-- Fixture for C10: its extraction result. -/
def c10_extracted : Extracted :=
  { company := "omega", records_affected := none, attack_vector := none }

/-- Fixture for C10: a DUPLICATE_SOURCE verdict, giving a terminal
discard decision. -/
def c10_check : UpdateCheck :=
  { is_update := false
    related_breach_id := none
    confidence := 8/10
    is_duplicate_source := true }

/-- Fixture for C10: collaborators returning the duplicate verdict. -/
def c10_services : Services :=
  { extract_breach_data := fun _ => .ok c10_extracted
    detect_update := fun _ _ => .ok c10_check
    write_new_breach := fun _ _ => .ok "b-c10"
    write_breach_update := fun _ _ _ => .ok () }

/-- Fixture for C10: empty database, empty cache. -/
def c10_state : RunState := init_state [] []

/-- Unfolding equation for `records_match` on two present values. -/
theorem records_match_some_some (a b : Int) :
    records_match (some a) (some b) =
      if a = 0 ∨ b = 0 then none
      else some (decide (|(a : ℚ) - (b : ℚ)| / max (a : ℚ) (b : ℚ) ≤ 1/10)) := rfl

example : records_match (some 100) (some 110) = some true := by
  rw [records_match_some_some, if_neg (by norm_num)]
  norm_num [max_def]

example : records_match (some 100) (some 89) = some false := by
  rw [records_match_some_some, if_neg (by norm_num)]
  norm_num [max_def]

example : records_match none (some 5) = none := rfl
example : records_match (some 0) (some 5) = none := by
  rw [records_match_some_some, if_pos (Or.inl rfl)]

example : norm_chars "Acme  Corp" = "acme corp".toList := by decide
example : lcsLen "acme corp".toList "acme corp".toList = 9 := by decide

/-- Evaluation: the modelled similarity of the fixture name with itself. -/
theorem sim_acme_self : company_similarity "acme corp" "acme corp" = 1 := by
  unfold company_similarity
  rw [if_neg (by decide)]
  rw [show lcsLen (norm_chars "acme corp") (norm_chars "acme corp") = 9 from by decide]
  rw [show (norm_chars "acme corp").length = 9 from by decide]
  norm_num

/-- Evaluation: similarity of the C3 query with the exact-name record. -/
theorem sim_corp_self :
    company_similarity "Acme Corporation" "Acme Corporation" = 1 := by
  unfold company_similarity
  rw [if_neg (by decide)]
  rw [show lcsLen (norm_chars "Acme Corporation") (norm_chars "Acme Corporation") = 16
    from by decide]
  rw [show (norm_chars "Acme Corporation").length = 16 from by decide]
  norm_num

/-- Evaluation: similarity of the C3 query with the longer record name. -/
theorem sim_corp_corpinc :
    company_similarity "Acme Corporation" "Acme Corporation Inc" = 8/9 := by
  unfold company_similarity
  rw [if_neg (by decide)]
  rw [show lcsLen (norm_chars "Acme Corporation") (norm_chars "Acme Corporation Inc") = 16
    from by decide]
  rw [show (norm_chars "Acme Corporation").length = 16 from by decide]
  rw [show (norm_chars "Acme Corporation Inc").length = 20 from by decide]
  norm_num

/-- Evaluation: similarity of two unrelated fixture names. -/
theorem sim_acme_zz : company_similarity "acme corp" "zz" = 0 := by
  unfold company_similarity
  rw [if_neg (by decide)]
  rw [show lcsLen (norm_chars "acme corp") (norm_chars "zz") = 0 from by decide]
  norm_num

/-- Helper: every successful branch of the decision step appends the
article's url to the processed-IDs cache. -/
theorem decide_and_write_ok_processed (o : Services) (st : RunState) (a : Article)
    (e : Extracted) (uc : UpdateCheck) (st' : RunState)
    (h : decide_and_write o st a e uc = .ok st') :
    st'.processed = st.processed ++ [a.url] := by
  unfold decide_and_write at h
  split at h
  · cases hw : o.write_breach_update e uc.related_breach_id a with
    | error m => rw [hw] at h; cases h
    | ok u => rw [hw] at h; injection h with h2; subst h2; rfl
  · split at h
    · injection h with h2; subst h2; rfl
    · cases hw : o.write_new_breach e a with
      | error m => rw [hw] at h; cases h
      | ok bid => rw [hw] at h; injection h with h2; subst h2; rfl

/-- Helper: a successful per-article body marks the article processed. -/
theorem processArticleBody_ok_processed (o : Services) (sim : String → String → ℚ)
    (st : RunState) (a : Article) (st' : RunState)
    (h : processArticleBody o sim st a = .ok st') :
    st'.processed = st.processed ++ [a.url] := by
  unfold processArticleBody at h
  cases he : o.extract_breach_data a with
  | error m => simp only [he] at h; exact Except.noConfusion h
  | ok e =>
    simp only [he] at h
    cases hr : resolve_update_check o sim st a e with
    | error m => simp only [hr] at h; exact Except.noConfusion h
    | ok uc =>
      simp only [hr] at h
      exact decide_and_write_ok_processed o st a e uc st' h

/-- Claim C5 (confirmed): whenever either side's scale value is missing
(`None`), the computed `records_match` signal is `null`, in particular it
is never `false` in that case. -/
theorem claim5_scale_missing_null (a b : Option Int) (h : a = none ∨ b = none) :
    records_match a b = none := by
  rcases h with h | h
  · subst h; rfl
  · subst h; cases a <;> rfl

/-- Witness for C5: a concrete pair with the left scale missing. -/
theorem claim5_scale_missing_null_witness :
    records_match none (some 5) = none :=
  claim5_scale_missing_null none (some 5) (Or.inl rfl)

/-- Claim C4, counterexample: the claim asserts that for every pair with
both scale values present the signal is `true` iff
`|a - b| / max(a, b) <= 0.10`; at the present pair `(0, 0)` the ratio
condition holds (Lean's total division gives `0 / 0 = 0`), yet the code's
truthiness guard yields `null`, not `true`. -/
theorem claim4_counterexample :
    records_match (some 0) (some 0) = none ∧
      |(0 : ℚ) - (0 : ℚ)| / max (0 : ℚ) (0 : ℚ) ≤ 1/10 := by
  constructor
  · rw [records_match_some_some, if_pos (Or.inl rfl)]
  · norm_num

/-- Claim C4 (corrected): for every pair in which both scale values are
present and nonzero (the code's presence guard is Python truthiness), the
computed signal is `true` iff `|a - b| / max(a, b) <= 0.10`; the boundary
behaviour (exactly 10% of the larger value matches, more does not) is an
instance of the equivalence. -/
theorem claim4_scale_ratio_iff (a b : Int) (ha : a ≠ 0) (hb : b ≠ 0) :
    records_match (some a) (some b) = some true ↔
      |(a : ℚ) - (b : ℚ)| / max (a : ℚ) (b : ℚ) ≤ 1/10 := by
  rw [records_match_some_some, if_neg (by tauto)]
  simp only [Option.some.injEq, decide_eq_true_eq]

/-- Witness for C4: a pair differing by exactly 10% of the larger value
(99 vs 110; the difference 11 is exactly 10% of 110) evaluates to a `true`
signal, the boundary case of the claim. -/
theorem claim4_scale_ratio_iff_witness :
    records_match (some 99) (some 110) = some true :=
  (claim4_scale_ratio_iff 99 110 (by norm_num) (by norm_num)).mpr (by norm_num [max_def])

/-- Claim C9 (confirmed): a zero scale value on either side is treated the
same as a missing one — the truthiness guard makes the signal `null` — and
whenever the guard lets the division run (the signal is not `null`), the
denominator `max(a, b)` is nonzero. -/
theorem claim9_zero_scale_like_missing :
    (∀ x : Option Int,
      records_match (some 0) x = none ∧ records_match x (some 0) = none) ∧
    (∀ a b : Int, records_match (some a) (some b) ≠ none →
      max (a : ℚ) (b : ℚ) ≠ 0) := by
  constructor
  · intro x
    constructor
    · cases x with
      | none => rfl
      | some v => rw [records_match_some_some, if_pos (Or.inl rfl)]
    · cases x with
      | none => rfl
      | some v => rw [records_match_some_some, if_pos (Or.inr rfl)]
  · intro a b h hmax
    apply h
    rw [records_match_some_some]
    apply if_pos
    rcases max_choice (a : ℚ) (b : ℚ) with hc | hc <;> rw [hc] at hmax
    · exact Or.inl (by exact_mod_cast hmax)
    · exact Or.inr (by exact_mod_cast hmax)

/-- Witness for C9: a zero-valued scale against a present nonzero one gives
a `null` signal, and a concrete non-`null` signal has nonzero denominator. -/
theorem claim9_zero_scale_like_missing_witness :
    records_match (some 0) (some 5) = none ∧ max (3 : ℚ) (4 : ℚ) ≠ 0 := by
  constructor
  · exact (claim9_zero_scale_like_missing.1 (some 5)).1
  · apply claim9_zero_scale_like_missing.2 3 4
    rw [records_match_some_some, if_neg (by norm_num)]
    simp

/-- Claim C10 (confirmed): an article's url is appended to the
processed-IDs cache exactly when its processing reaches a terminal
decision (the `try` body succeeds: record created, update appended, or
discarded as duplicate source); an article whose processing raised an
error only bumps the error counter and is left unmarked, hence eligible
for re-processing in a future run. -/
theorem claim10_processed_marker_iff_terminal (o : Services)
    (sim : String → String → ℚ) (st : RunState) (a : Article) :
    (∀ st', processArticleBody o sim st a = .ok st' →
      processArticle o sim st a = st' ∧ st'.processed = st.processed ++ [a.url]) ∧
    (∀ m, processArticleBody o sim st a = .error m →
      processArticle o sim st a = { st with errors := st.errors + 1 }) := by
  constructor
  · intro st' h
    constructor
    · unfold processArticle
      rw [h]
    · exact processArticleBody_ok_processed o sim st a st' h
  · intro m h
    unfold processArticle
    rw [h]

/-- Witness for C10: a terminal discard decision marks the article's url
processed. -/
theorem claim10_processed_marker_iff_terminal_witness :
    processArticle c10_services zero_sim c10_state c10_article =
      { c10_state with duplicates_skipped := 1, processed := [c10_article.url] } ∧
    ({ c10_state with duplicates_skipped := 1, processed := [c10_article.url] } :
        RunState).processed =
      c10_state.processed ++ [c10_article.url] :=
  (claim10_processed_marker_iff_terminal c10_services zero_sim c10_state c10_article).1
    { c10_state with duplicates_skipped := 1, processed := [c10_article.url] } rfl

/-- Claim C7 (confirmed): an error raised while processing one article
never aborts the run — it is caught at the loop boundary, the error
counter is incremented, the state is otherwise untouched, and the loop
continues with the remaining articles. -/
theorem claim7_article_error_never_aborts (o : Services) (sim : String → String → ℚ)
    (st : RunState) (a : Article) (rest : List Article) (m : String)
    (h : processArticleBody o sim st a = .error m) :
    run_articles o sim (a :: rest) st =
      run_articles o sim rest { st with errors := st.errors + 1 } := by
  show run_articles o sim rest (processArticle o sim st a) = _
  unfold processArticle
  rw [h]

/-- Witness for C7: a batch whose first article raises during extraction
continues with the second article and only bumps the error counter. -/
theorem claim7_article_error_never_aborts_witness :
    run_articles c7_services zero_sim [c7_a, c7_b] c7_state =
      run_articles c7_services zero_sim [c7_b] { c7_state with errors := c7_state.errors + 1 } :=
  claim7_article_error_never_aborts c7_services zero_sim c7_state c7_a [c7_b] "boom" rfl

/-- Claim C6 (confirmed): an article whose decision-service verdict is
DUPLICATE_SOURCE — at any confidence — is discarded: the duplicate counter
is bumped and the url marked processed, but no record is created and no
update is appended. -/
theorem claim6_duplicate_source_discard (o : Services) (sim : String → String → ℚ)
    (st : RunState) (a : Article) (e : Extracted) (uc : UpdateCheck)
    (hext : o.extract_breach_data a = .ok e)
    (hfind : find_in_run_duplicate sim e.company st.existing = none)
    (hdet : o.detect_update a st.existing = .ok uc)
    (hdup : uc.is_duplicate_source = true) :
    processArticle o sim st a =
      { st with
        duplicates_skipped := st.duplicates_skipped + 1
        processed := st.processed ++ [a.url] } := by
  unfold processArticle processArticleBody resolve_update_check decide_and_write
  simp only [hext, hfind, hdet]
  rw [if_neg (fun hc => Bool.noConfusion (hdup.symm.trans hc.2.2))]
  rw [if_pos hdup]

/-- Witness for C6: a concrete DUPLICATE_SOURCE verdict at confidence 0.3
is discarded. -/
theorem claim6_duplicate_source_discard_witness :
    processArticle c6_services zero_sim c6_state c6_article =
      { c6_state with
        duplicates_skipped := c6_state.duplicates_skipped + 1
        processed := c6_state.processed ++ [c6_article.url] } :=
  claim6_duplicate_source_discard c6_services zero_sim c6_state c6_article
    c6_extracted c6_check rfl rfl rfl rfl

/-- Claim C1 (corrected): an article not matched by the in-batch index
whose verdict is GENUINE_UPDATE with confidence strictly below 0.7 falls
through `is_genuine_update` and `is_duplicate` to the create branch: no
update is appended, and (when the storage write succeeds) a NEW record is
created and registered — not the `Discard` the claim states. -/
theorem claim1_low_confidence_update_creates_new (o : Services)
    (sim : String → String → ℚ) (st : RunState) (a : Article) (e : Extracted)
    (uc : UpdateCheck) (bid : String)
    (hext : o.extract_breach_data a = .ok e)
    (hfind : find_in_run_duplicate sim e.company st.existing = none)
    (hdet : o.detect_update a st.existing = .ok uc)
    (_hupd : uc.is_update = true)
    (hdup : uc.is_duplicate_source = false)
    (hconf : uc.confidence < 7/10)
    (hw : o.write_new_breach e a = .ok bid) :
    processArticle o sim st a =
      { st with
        existing := st.existing ++
          [{ id := bid
             company := e.company
             records_affected := e.records_affected
             attack_vector := e.attack_vector }]
        breaches_created := st.breaches_created + 1
        processed := st.processed ++ [a.url] } := by
  unfold processArticle processArticleBody resolve_update_check decide_and_write
  simp only [hext, hfind, hdet]
  rw [if_neg (fun hc => absurd hc.2.1 (not_le.mpr hconf))]
  rw [if_neg (fun hc => Bool.noConfusion (hdup.symm.trans hc))]
  simp only [hw]

/-- Witness for C1: the concrete low-confidence (0.6) GENUINE_UPDATE
verdict ends in the create branch. -/
theorem claim1_low_confidence_update_creates_new_witness :
    processArticle c1_services zero_sim (init_state [] []) c1_article =
      { init_state [] [] with
        existing := (init_state [] []).existing ++
          [{ id := "b-new"
             company := c1_extracted.company
             records_affected := c1_extracted.records_affected
             attack_vector := c1_extracted.attack_vector }]
        breaches_created := (init_state [] []).breaches_created + 1
        processed := (init_state [] []).processed ++ [c1_article.url] } :=
  claim1_low_confidence_update_creates_new c1_services zero_sim (init_state [] [])
    c1_article c1_extracted c1_check "b-new" rfl rfl rfl rfl rfl (by norm_num [c1_check]) rfl

/-- Claim C1, counterexample: at a concrete article with a GENUINE_UPDATE
verdict of confidence 0.6 (below 0.7), no in-batch match and a successful
storage write, the pipeline creates a new record (`breaches_created = 1`)
instead of discarding, refuting "no new record is created for that
article". -/
theorem claim1_counterexample :
    find_in_run_duplicate zero_sim c1_extracted.company (init_state [] []).existing = none ∧
    c1_services.detect_update c1_article (init_state [] []).existing = .ok c1_check ∧
    c1_check.is_update = true ∧
    c1_check.is_duplicate_source = false ∧
    c1_check.confidence < 7/10 ∧
    (processArticle c1_services zero_sim (init_state [] []) c1_article).breaches_created = 1 ∧
    (processArticle c1_services zero_sim (init_state [] []) c1_article).updates_created = 0 := by
  have hext : c1_services.extract_breach_data c1_article = .ok c1_extracted := rfl
  have hfind : find_in_run_duplicate zero_sim c1_extracted.company
      (init_state [] []).existing = none := rfl
  have hdet : c1_services.detect_update c1_article (init_state [] []).existing =
      .ok c1_check := rfl
  have hconf : c1_check.confidence < 7/10 := by norm_num [c1_check]
  have heval : processArticle c1_services zero_sim (init_state [] []) c1_article =
      { init_state [] [] with
        existing := (init_state [] []).existing ++
          [{ id := "b-new"
             company := c1_extracted.company
             records_affected := c1_extracted.records_affected
             attack_vector := c1_extracted.attack_vector }]
        breaches_created := (init_state [] []).breaches_created + 1
        processed := (init_state [] []).processed ++ [c1_article.url] } := by
    unfold processArticle processArticleBody resolve_update_check decide_and_write
    simp only [hext, hfind, hdet]
    rw [if_neg (fun hc => absurd hc.2.1 (not_le.mpr hconf))]
    rw [if_neg (fun hc => Bool.noConfusion hc)]
    rfl
  refine ⟨hfind, hdet, rfl, rfl, hconf, ?_, ?_⟩
  · rw [heval]; rfl
  · rw [heval]; rfl

/-- Claim C2 (corrected): when the extracted organization name reaches the
0.85 similarity threshold against at least one record *registered in the
in-batch index* — which the record of an earlier article provides only
when that article actually created one — the article's update check is
forced (confidence 1.0, against the first registered record meeting the
threshold), `detect_update` is not called, and with a succeeding storage
append the decision is AppendUpdate. -/
theorem claim2_in_run_match_forces_update (o : Services)
    (sim : String → String → ℚ) (st : RunState) (a : Article) (e : Extracted)
    (hext : o.extract_breach_data a = .ok e)
    (hmatch : ∃ b ∈ st.existing, FUZZY_MATCH_THRESHOLD ≤ sim e.company b.company)
    (hw : ∀ r, o.write_breach_update e r a = .ok ()) :
    ∃ b, find_in_run_duplicate sim e.company st.existing = some b ∧
      FUZZY_MATCH_THRESHOLD ≤ sim e.company b.company ∧
      resolve_update_check o sim st a e = .ok (forced_update_check b) ∧
      (forced_update_check b).confidence = 1 ∧
      detect_called o sim st a = false ∧
      processArticle o sim st a =
        { st with
          updates_created := st.updates_created + 1
          processed := st.processed ++ [a.url] } := by
  have hsome : (st.existing.find? fun b =>
      decide (FUZZY_MATCH_THRESHOLD ≤ sim e.company b.company)).isSome := by
    rw [List.find?_isSome]
    obtain ⟨b, hb, hle⟩ := hmatch
    exact ⟨b, hb, decide_eq_true hle⟩
  obtain ⟨b, hfind⟩ := Option.isSome_iff_exists.mp hsome
  have hpb := List.find?_some hfind
  have hle : FUZZY_MATCH_THRESHOLD ≤ sim e.company b.company := by
    simpa using hpb
  have hfir : find_in_run_duplicate sim e.company st.existing = some b := hfind
  have hres : resolve_update_check o sim st a e = .ok (forced_update_check b) := by
    unfold resolve_update_check
    rw [hfir]
  refine ⟨b, hfir, hle, hres, rfl, ?_, ?_⟩
  · unfold detect_called
    simp only [hext, hfir, Option.isNone_some]
  · unfold processArticle processArticleBody decide_and_write
    simp only [hext, hres]
    rw [if_pos ⟨rfl, by norm_num [forced_update_check], rfl⟩]
    simp only [hw]

/-- Witness for C2: a second same-company article with the first's record
registered is forced to an update and skips the service call. -/
theorem claim2_in_run_match_forces_update_witness :
    (processArticle c2_services company_similarity c2_state c2_article).updates_created =
      c2_state.updates_created + 1 ∧
    detect_called c2_services company_similarity c2_state c2_article = false := by
  obtain ⟨b, h1, h2, h3, h4, h5, h6⟩ :=
    claim2_in_run_match_forces_update c2_services company_similarity c2_state
      c2_article c2_extracted rfl
      ⟨c2_breach, by simp [c2_state, init_state], by
        show FUZZY_MATCH_THRESHOLD ≤ company_similarity "acme corp" "acme corp"
        rw [sim_acme_self]
        norm_num [FUZZY_MATCH_THRESHOLD]⟩
      (fun r => rfl)
  constructor
  · rw [h6]
  · exact h5

/-- Claim C2, counterexample: two articles in the same run extract the very
same organization name (similarity 1 ≥ 0.85), but because the first is
classified DUPLICATE_SOURCE nothing is registered in the in-batch index,
so the decision service is called for BOTH articles and no AppendUpdate
occurs — refuting the claim as stated over every same-run pair. -/
theorem claim2_counterexample :
    FUZZY_MATCH_THRESHOLD ≤ company_similarity "acme corp" "acme corp" ∧
    detect_called c2x_services company_similarity c2x_state c2x_a1 = true ∧
    detect_called c2x_services company_similarity
      (processArticle c2x_services company_similarity c2x_state c2x_a1) c2x_a2 = true ∧
    (run_articles c2x_services company_similarity [c2x_a1, c2x_a2] c2x_state).updates_created
      = 0 := by
  refine ⟨?_, rfl, ?_, ?_⟩
  · rw [sim_acme_self]
    norm_num [FUZZY_MATCH_THRESHOLD]
  · rfl
  · rfl

/-- Claim C3 (corrected): the in-batch lookup is a first-match scan, not a
best-match search — it returns the earliest registered record whose
similarity meets the threshold, regardless of the scores of later
registered records. -/
theorem claim3_first_match_wins (sim : String → String → ℚ) (c : String)
    (pre post : List Breach) (b : Breach)
    (hpre : ∀ p ∈ pre, sim c p.company < FUZZY_MATCH_THRESHOLD)
    (hb : FUZZY_MATCH_THRESHOLD ≤ sim c b.company) :
    find_in_run_duplicate sim c (pre ++ b :: post) = some b := by
  induction pre with
  | nil =>
    unfold find_in_run_duplicate
    exact List.find?_cons_of_pos _ (decide_eq_true hb)
  | cons p pre ih =>
    unfold find_in_run_duplicate at ih ⊢
    rw [List.cons_append, List.find?_cons_of_neg]
    · exact ih fun q hq => hpre q (List.mem_cons_of_mem p hq)
    · intro hcontra
      exact absurd (of_decide_eq_true hcontra)
        (not_le.mpr (hpre p (List.mem_cons_self p pre)))

/-- Witness for C3: with one below-threshold record registered before one
above-threshold record, the scan returns the above-threshold record. -/
theorem claim3_first_match_wins_witness :
    find_in_run_duplicate company_similarity "acme corp" [c3_low, c3_hit] = some c3_hit :=
  claim3_first_match_wins company_similarity "acme corp" [c3_low] [] c3_hit
    (by
      intro p hp
      have hps : p = c3_low := by simpa using hp
      subst hps
      show company_similarity "acme corp" "zz" < FUZZY_MATCH_THRESHOLD
      rw [sim_acme_zz]
      norm_num [FUZZY_MATCH_THRESHOLD])
    (by
      show FUZZY_MATCH_THRESHOLD ≤ company_similarity "acme corp" "acme corp"
      rw [sim_acme_self]
      norm_num [FUZZY_MATCH_THRESHOLD])

/-- Claim C3, counterexample: two registered records both meet the 0.85
threshold against the query; the later-registered one scores strictly
higher (an exact name match, score 1, vs 8/9), yet the lookup returns the
earlier, lower-scoring record — refuting both the highest-score rule and
the most-recent tie-break direction. -/
theorem claim3_counterexample :
    FUZZY_MATCH_THRESHOLD ≤ company_similarity "Acme Corporation" c3_b1.company ∧
    FUZZY_MATCH_THRESHOLD ≤ company_similarity "Acme Corporation" c3_b2.company ∧
    company_similarity "Acme Corporation" c3_b1.company <
      company_similarity "Acme Corporation" c3_b2.company ∧
    find_in_run_duplicate company_similarity "Acme Corporation" [c3_b1, c3_b2] =
      some c3_b1 := by
  have h1 : company_similarity "Acme Corporation" "Acme Corporation Inc" = 8/9 :=
    sim_corp_corpinc
  have h2 : company_similarity "Acme Corporation" "Acme Corporation" = 1 :=
    sim_corp_self
  refine ⟨?_, ?_, ?_, ?_⟩
  · show FUZZY_MATCH_THRESHOLD ≤ company_similarity "Acme Corporation" "Acme Corporation Inc"
    rw [h1]
    norm_num [FUZZY_MATCH_THRESHOLD]
  · show FUZZY_MATCH_THRESHOLD ≤ company_similarity "Acme Corporation" "Acme Corporation"
    rw [h2]
    norm_num [FUZZY_MATCH_THRESHOLD]
  · show company_similarity "Acme Corporation" "Acme Corporation Inc" <
      company_similarity "Acme Corporation" "Acme Corporation"
    rw [h1, h2]
    norm_num
  · unfold find_in_run_duplicate
    apply List.find?_cons_of_pos
    apply decide_eq_true
    show FUZZY_MATCH_THRESHOLD ≤ company_similarity "Acme Corporation" "Acme Corporation Inc"
    rw [h1]
    norm_num [FUZZY_MATCH_THRESHOLD]

/-- Claim C8 (confirmed): re-running over a batch whose every article is
already in the processed-IDs cache filters down to an empty new-article
list, so the run ends in the initial state: zero records created, zero
updates appended, the stored candidates untouched. -/
theorem claim8_idempotent_rerun (o : Services) (sim : String → String → ℚ)
    (existing : List Breach) (processed : List String) (recent : List Article)
    (h : ∀ a ∈ recent, a.url ∈ processed) :
    get_new_articles processed recent = [] ∧
    run_pipeline o sim existing processed recent = init_state existing processed ∧
    (run_pipeline o sim existing processed recent).breaches_created = 0 ∧
    (run_pipeline o sim existing processed recent).updates_created = 0 := by
  have hempty : get_new_articles processed recent = [] := by
    unfold get_new_articles
    rw [List.filter_eq_nil_iff]
    intro a ha
    simp [h a ha]
  have hrun : run_pipeline o sim existing processed recent =
      init_state existing processed := by
    unfold run_pipeline
    rw [hempty]
    rfl
  exact ⟨hempty, hrun, by rw [hrun]; rfl, by rw [hrun]; rfl⟩

/-- Witness for C8: a one-article batch whose url is already cached
produces an empty filtered list and an unchanged state. -/
theorem claim8_idempotent_rerun_witness :
    get_new_articles ["u-c8"] [c8_article] = [] ∧
    run_pipeline c8_services zero_sim [] ["u-c8"] [c8_article] =
      init_state [] ["u-c8"] ∧
    (run_pipeline c8_services zero_sim [] ["u-c8"] [c8_article]).breaches_created = 0 ∧
    (run_pipeline c8_services zero_sim [] ["u-c8"] [c8_article]).updates_created = 0 :=
  claim8_idempotent_rerun c8_services zero_sim [] ["u-c8"] [c8_article]
    (by intro a ha; simp at ha; subst ha; simp [c8_article])
